import Mathlib

/-!
Verification of the item write pipeline of the WoW Inventory application
(src/controllers/itemController.js), shallowly embedded in Lean 4.

The catalog store is a record of lists (Item, ItemInstance, Slot documents);
the handlers item_create_post, item_delete_get, item_delete_post and
item_update_post are translated as pure functions on this store, returning
the new store together with the response committed to the client.  The image
host (cloudinary) is an external collaborator and is abstracted as a
function from the uploaded file to the public URL it returns.
-/

namespace Inventory

/-- An Item document: name, description, quality, slot reference and
image URL (the string "#" is the no-image sentinel). -/
structure Item where
  id : Nat
  name : String
  description : String
  quality : String
  slot : String
  imgUrl : String
deriving Repr, DecidableEq

/-- An ItemInstance document: it references an Item by id, a Seller by id,
and carries a stock count. -/
structure ItemInstance where
  id : Nat
  item : Nat
  seller : Nat
  num_of_stocks : Nat
deriving Repr, DecidableEq

/-- A Slot document. -/
structure Slot where
  id : Nat
  name : String
deriving Repr, DecidableEq

/-- The catalog store: the collections the item controller touches. -/
structure Store where
  items : List Item
  instances : List ItemInstance
  slots : List Slot
deriving Repr, DecidableEq

/-- `Item.findById(id)`: first document with the given id, if any. -/
def findItemById (s : Store) (i : Nat) : Option Item :=
  s.items.find? (fun it => it.id == i)

/-- `ItemInstance.find({ item: id })`: all instances referencing the item. -/
def instancesOf (s : Store) (i : Nat) : List ItemInstance :=
  s.instances.filter (fun inst => inst.item == i)

/-- `Item.findByIdAndDelete(id)`: remove the document with the given id. -/
def deleteItemById (s : Store) (i : Nat) : Store :=
  { s with items := s.items.filter (fun it => it.id != i) }

/-- Does the item collection contain a document with the given id? -/
def hasItemId (l : List Item) (i : Nat) : Bool :=
  l.any (fun it => it.id == i)

/-- `Item.findByIdAndUpdate(id, doc, {})`: overwrite the fields of the
document with the given id by those of `doc`, keeping its identity; a
missing id is a no-op (no upsert). -/
def updateItemById (s : Store) (i : Nat) (doc : Item) : Store :=
  { s with
    items := s.items.map (fun it =>
      if it.id == i then { doc with id := it.id } else it) }

/-- Insertion of one slot into a name-sorted list. -/
def insertSlot (x : Slot) : List Slot → List Slot
  | [] => [x]
  | y :: ys => if x.name ≤ y.name then x :: y :: ys else y :: insertSlot x ys

/-- `Slot.find({}).sort({ name: 1 })`: the slot list sorted by name. -/
def sortSlotsByName : List Slot → List Slot
  | [] => []
  | x :: xs => insertSlot x (sortSlotsByName xs)

/-- JS String.prototype.trim (as used by validator.js trim): strip leading
and trailing whitespace characters. -/
def jsTrim (s : String) : String :=
  String.mk (((s.data.dropWhile Char.isWhitespace).reverse.dropWhile
    Char.isWhitespace).reverse)

/-- JS String.prototype.startsWith, over the characters of the strings. -/
def jsStartsWith (s p : String) : Bool :=
  p.data.isPrefixOf s.data

/-- validator.js escape of a single character (`&`, `"`, `'`, `<`, `>`,
`/`, `\`, backtick become HTML entities). -/
def escapeChar (c : Char) : String :=
  if c = Char.ofNat 38 then "&amp;"
  else if c = Char.ofNat 34 then "&quot;"
  else if c = Char.ofNat 39 then "&#x27;"
  else if c = Char.ofNat 60 then "&lt;"
  else if c = Char.ofNat 62 then "&gt;"
  else if c = Char.ofNat 47 then "&#x2F;"
  else if c = Char.ofNat 92 then "&#x5C;"
  else if c = Char.ofNat 96 then "&#96;"
  else String.mk [c]

/-- validator.js `escape`: escape every character of the string. -/
def escapeString (s : String) : String :=
  String.join (s.data.map escapeChar)

/-- The sanitization applied by each `body(...).trim().isLength(...).escape()`
chain: trim whitespace, then HTML-escape. -/
def sanitize (s : String) : String :=
  escapeString (jsTrim s)

/-- The uploaded file of a multipart request: its declared mimetype and its
byte buffer. -/
structure FileUpload where
  mimetype : String
  buffer : List Nat
deriving Repr, DecidableEq

/-- The raw form fields of an item create/update POST body. -/
structure FormFields where
  name : String
  description : String
  quality : String
  slot : String
deriving Repr, DecidableEq

/-- One entry of the express-validator error array: offending field and the
message given with the rule. -/
structure VError where
  field : String
  msg : String
deriving Repr, DecidableEq

/-- The validation stage shared by item_create_post and item_update_post:
the declared field rules run in order (name ≥ 1, description ≥ 3,
quality ≥ 1, slot ≥ 1 after trimming; an attached file must have a
mimetype starting with "image/"), each contributing its message on
violation. -/
def validateItemForm (f : FormFields) (file : Option FileUpload) : List VError :=
  (if 1 ≤ (jsTrim f.name).length then [] else [⟨"name", "Name must not be empty."⟩]) ++
  (if 3 ≤ (jsTrim f.description).length then [] else [⟨"description", "Description must not be empty."⟩]) ++
  (if 1 ≤ (jsTrim f.quality).length then [] else [⟨"quality", "Quality must not be empty."⟩]) ++
  (if 1 ≤ (jsTrim f.slot).length then [] else [⟨"slot", "Slot must not be empty"⟩]) ++
  (match file with
   | none => []
   | some fl =>
     if jsStartsWith fl.mimetype "image/" then []
     else [⟨"itemImage", "Please submit a image file"⟩])

/-- A response sent by a handler: a redirect, a render of the item form
(create/update), or a render of the delete-confirmation page.  Optional
fields model template-bag keys the source only passes on some paths. -/
inductive Response where
  | redirect (url : String)
  | renderItemForm (title : String) (item : Option Item) (slots : List Slot)
      (errors : Option (List VError)) (code : Option String)
      (form_type : Option String) (error : Option String)
  | renderItemDelete (title : String) (item : Option Item)
      (itemInstances : List ItemInstance) (code : Option String)
      (error : Option String)
deriving Repr, DecidableEq

/-- Modelled from the spec: the Item model file (models/item.js, not under
the given sources) defines the `url` virtual used by the redirects; per the
spec this is the item's detail-page URL. -/
def itemUrl (i : Nat) : String :=
  "/catalog/item/" ++ toString i

/-- The candidate Item a POST handler builds from the sanitized form
fields (`new Item({...})`); `imgUrl` is not set at construction. -/
def candidateItem (i : Nat) (f : FormFields) : Item :=
  { id := i
    name := sanitize f.name
    description := sanitize f.description
    quality := sanitize f.quality
    slot := sanitize f.slot
    imgUrl := "" }

/-- item_create_post: validate; on errors re-fetch the slot list and
re-render the form with the candidate (no persistence); otherwise set
`imgUrl` from the uploaded file's public URL or to the sentinel "#", save
the new Item and redirect to its detail URL.  `upload` abstracts the
image host; `freshId` is the id the store assigns the new document. -/
def item_create_post (upload : FileUpload → String) (s : Store) (freshId : Nat)
    (f : FormFields) (file : Option FileUpload) : Store × Response :=
  let errors := validateItemForm f file
  let item := candidateItem freshId f
  if errors ≠ [] then
    (s, Response.renderItemForm "Create Item" (some item) s.slots
      (some errors) none none none)
  else
    let item :=
      match file with
      | some fl => { item with imgUrl := upload fl }
      | none => { item with imgUrl := "#" }
    ({ s with items := s.items ++ [item] }, Response.redirect (itemUrl item.id))

/-- item_delete_get: fetch the item and its instances; when the item is
missing the source redirects to the item list but, lacking a `return`,
falls through to `res.render` as well.  The handler is therefore embedded
as the ordered list of response actions it attempts. -/
def item_delete_get (s : Store) (routeId : Nat) : List Response :=
  let item := findItemById s routeId
  let itemInstances := instancesOf s routeId
  (if item = none then [Response.redirect "/catalog/items"] else []) ++
  [Response.renderItemDelete "Delete Item" item itemInstances none none]

/-- The response the client observes: Express commits the first response
written; later writes fail (headers already sent) without reaching the
client. -/
def effectiveResponse (actions : List Response) : Option Response :=
  actions.head?

/-- item_delete_post: fetch the item at the route id and its instances;
if any instance exists or the security code is not "123", re-render the
confirmation page (always with the "Wrong security code." message) and
mutate nothing; otherwise delete the document named by the body field
`itemid` and redirect to the item list. -/
def item_delete_post (s : Store) (routeId : Nat) (security_code : String)
    (itemid : Nat) : Store × Response :=
  let item := findItemById s routeId
  let itemInstances := instancesOf s routeId
  if 0 < itemInstances.length ∨ security_code ≠ "123" then
    (s, Response.renderItemDelete "Delete Item" item itemInstances
      (some security_code) (some "Wrong security code."))
  else
    (deleteItemById s itemid, Response.redirect "/catalog/items")

/-- item_update_post: validate; if errors exist or the security code is
not "123", re-fetch the current item and the name-sorted slot list and
re-render the form (mutating nothing), with the "Wrong security code."
message exactly when the code mismatches; otherwise set `imgUrl` from the
uploaded file's public URL or to "#", overwrite the stored document at
the route id with the candidate and redirect to its detail URL. -/
def item_update_post (upload : FileUpload → String) (s : Store) (routeId : Nat)
    (f : FormFields) (file : Option FileUpload) (security_code : String) :
    Store × Response :=
  let errors := validateItemForm f file
  let item := candidateItem routeId f
  if errors ≠ [] ∨ security_code ≠ "123" then
    (s, Response.renderItemForm "Update Item" (findItemById s routeId)
      (sortSlotsByName s.slots) (some errors) (some security_code)
      (some "update")
      (some (if security_code ≠ "123" then "Wrong security code." else "")))
  else
    let item :=
      match file with
      | some fl => { item with imgUrl := upload fl }
      | none => { item with imgUrl := "#" }
    (updateItemById s routeId item, Response.redirect (itemUrl item.id))

/-- C4: the validation stage (shared by Create and Update) produces, after
trimming, exactly "Name must not be empty." iff the trimmed name is empty,
"Description must not be empty." iff the trimmed description has length < 3,
"Quality must not be empty." iff the trimmed quality is empty,
"Slot must not be empty" iff the trimmed slot is empty, and
"Please submit a image file" iff a file is present whose mimetype does not
start with "image/"; it returns no errors exactly when no rule is violated
(an absent file always passes the file rule). -/
theorem validation_stage_exact (f : FormFields) (file : Option FileUpload) :
    ((⟨"name", "Name must not be empty."⟩ ∈ validateItemForm f file) ↔
      (jsTrim f.name).length < 1) ∧
    ((⟨"description", "Description must not be empty."⟩ ∈ validateItemForm f file) ↔
      (jsTrim f.description).length < 3) ∧
    ((⟨"quality", "Quality must not be empty."⟩ ∈ validateItemForm f file) ↔
      (jsTrim f.quality).length < 1) ∧
    ((⟨"slot", "Slot must not be empty"⟩ ∈ validateItemForm f file) ↔
      (jsTrim f.slot).length < 1) ∧
    ((⟨"itemImage", "Please submit a image file"⟩ ∈ validateItemForm f file) ↔
      ∃ fl, file = some fl ∧ jsStartsWith fl.mimetype "image/" = false) ∧
    (validateItemForm f file = [] ↔
      (1 ≤ (jsTrim f.name).length ∧ 3 ≤ (jsTrim f.description).length ∧
       1 ≤ (jsTrim f.quality).length ∧ 1 ≤ (jsTrim f.slot).length ∧
       ∀ fl, file = some fl → jsStartsWith fl.mimetype "image/" = true)) := by
  unfold validateItemForm
  rcases file with _ | fl <;> split_ifs <;> simp_all <;> omega

/-- C3: a Delete POST on an item with at least one referencing ItemInstance
is refused — the store is unchanged — even when the supplied security code
is the correct "123"; the refusal renders the delete-confirmation page and
its error message is the reused "Wrong security code." text. -/
theorem delete_post_blocked_by_instances (s : Store) (routeId itemid : Nat)
    (code : String) (h : 0 < (instancesOf s routeId).length) :
    item_delete_post s routeId code itemid =
      (s, Response.renderItemDelete "Delete Item" (findItemById s routeId)
        (instancesOf s routeId) (some code) (some "Wrong security code.")) := by
  unfold item_delete_post
  rw [if_pos (Or.inl h)]

/-- A concrete store for witnesses: one item (id 1) with two instances
referencing it, plus an unrelated item (id 2). -/
def demoStore : Store :=
  { items := [⟨1, "Sword", "A sharp blade", "Epic", "hand", "#"⟩,
              ⟨2, "Shield", "A sturdy shield", "Rare", "offhand", "#"⟩]
    instances := [⟨10, 1, 5, 2⟩, ⟨11, 1, 6, 0⟩]
    slots := [⟨7, "hand"⟩, ⟨8, "offhand"⟩] }

/-- Witness for C3: deleting item 1 of `demoStore` (which has 2 instances)
with the correct code "123" is refused and renders the confirmation page
with "Wrong security code.". -/
theorem delete_post_blocked_by_instances_witness :
    0 < (instancesOf demoStore 1).length ∧
    item_delete_post demoStore 1 "123" 1 =
      (demoStore, Response.renderItemDelete "Delete Item"
        (findItemById demoStore 1) (instancesOf demoStore 1)
        (some "123") (some "Wrong security code.")) :=
  ⟨by decide, delete_post_blocked_by_instances demoStore 1 1 "123" (by decide)⟩

/-- Valid demo form fields (the spec's Create scenario). -/
def demoFields : FormFields :=
  { name := "Sword", description := "A sharp blade", quality := "Epic", slot := "hand" }

/-- Invalid demo form fields: empty name (the spec's error scenario). -/
def badFields : FormFields :=
  { name := "", description := "ok ok", quality := "Epic", slot := "hand" }

/-- A demo image host returning a fixed public URL. -/
def demoUpload : FileUpload → String := fun _ => "https://img.example/u.png"

/-- C2: an Update POST whose security code is not "123" performs no mutation
(whatever the validation outcome); it re-fetches the current item and the
name-sorted slot list and re-renders the form, echoing the code, with the
error message "Wrong security code."; the branch is terminal. -/
theorem update_post_wrong_code (upload : FileUpload → String) (s : Store)
    (routeId : Nat) (f : FormFields) (file : Option FileUpload) (code : String)
    (h : code ≠ "123") :
    item_update_post upload s routeId f file code =
      (s, Response.renderItemForm "Update Item" (findItemById s routeId)
        (sortSlotsByName s.slots) (some (validateItemForm f file)) (some code)
        (some "update") (some "Wrong security code.")) := by
  simp [item_update_post, h]

/-- Witness for C2: updating item 1 of `demoStore` with valid fields but
code "999" leaves the store unchanged and renders the form with the error
message. -/
theorem update_post_wrong_code_witness :
    ("999" : String) ≠ "123" ∧
    item_update_post demoUpload demoStore 1 demoFields none "999" =
      (demoStore, Response.renderItemForm "Update Item"
        (findItemById demoStore 1) (sortSlotsByName demoStore.slots)
        (some (validateItemForm demoFields none)) (some "999")
        (some "update") (some "Wrong security code.")) :=
  ⟨by decide, update_post_wrong_code demoUpload demoStore 1 demoFields none "999" (by decide)⟩

/-- C5: an Update POST passing the validation-and-security-code gate with no
file stores "#" as the imgUrl of the item at the route id, whatever image
URL was stored before. -/
theorem update_post_no_file_sets_sentinel (upload : FileUpload → String)
    (s : Store) (routeId : Nat) (f : FormFields) (code : String)
    (hv : validateItemForm f none = []) (hc : code = "123") :
    (∀ it ∈ (item_update_post upload s routeId f none code).1.items,
        it.id = routeId → it.imgUrl = "#") ∧
    ((∃ it ∈ s.items, it.id = routeId) →
      ∃ it ∈ (item_update_post upload s routeId f none code).1.items,
        it.id = routeId ∧ it.imgUrl = "#") := by
  subst hc
  have hgate : ¬(validateItemForm f none ≠ [] ∨ ("123" : String) ≠ "123") := by
    simp [hv]
  have hrun : item_update_post upload s routeId f none "123" =
      (updateItemById s routeId { candidateItem routeId f with imgUrl := "#" },
        Response.redirect (itemUrl routeId)) := by
    simp only [item_update_post]
    rw [if_neg hgate]
    rfl
  rw [hrun]
  constructor
  · intro it hmem hid
    simp only [updateItemById, List.mem_map] at hmem
    obtain ⟨it0, _, heq⟩ := hmem
    by_cases hcase : (it0.id == routeId) = true
    · rw [if_pos hcase] at heq
      rw [← heq]
    · rw [if_neg hcase] at heq
      rw [← heq] at hid
      simp [hid] at hcase
  · rintro ⟨it0, h0, hid⟩
    have hb : (it0.id == routeId) = true := by simp [hid]
    refine ⟨_, List.mem_map.mpr ⟨it0, h0, rfl⟩, ?_⟩
    rw [if_pos hb]
    exact ⟨hid, rfl⟩

/-- Witness for C5: updating item 1 of `demoStore` with valid fields, code
"123" and no file leaves every stored record at id 1 with imgUrl "#". -/
theorem update_post_no_file_sets_sentinel_witness :
    validateItemForm demoFields none = [] ∧
    ((∀ it ∈ (item_update_post demoUpload demoStore 1 demoFields none "123").1.items,
        it.id = 1 → it.imgUrl = "#") ∧
      ((∃ it ∈ demoStore.items, it.id = 1) →
        ∃ it ∈ (item_update_post demoUpload demoStore 1 demoFields none "123").1.items,
          it.id = 1 ∧ it.imgUrl = "#")) :=
  ⟨by decide, update_post_no_file_sets_sentinel demoUpload demoStore 1 demoFields "123"
    (by decide) rfl⟩

/-- C6: a Create POST with valid input and no file persists a new Item
whose imgUrl is the sentinel "#" and redirects to the new item's detail
URL. -/
theorem create_post_valid_no_file (upload : FileUpload → String) (s : Store)
    (freshId : Nat) (f : FormFields) (hv : validateItemForm f none = []) :
    item_create_post upload s freshId f none =
      ({ s with items := s.items ++ [{ candidateItem freshId f with imgUrl := "#" }] },
        Response.redirect (itemUrl freshId)) := by
  simp [item_create_post, hv, candidateItem]

/-- Witness for C6: creating "Sword"/"A sharp blade"/"Epic"/"hand" without a
file appends the item with imgUrl "#" and redirects to its detail URL. -/
theorem create_post_valid_no_file_witness :
    validateItemForm demoFields none = [] ∧
    item_create_post demoUpload demoStore 3 demoFields none =
      ({ demoStore with
          items := demoStore.items ++ [{ candidateItem 3 demoFields with imgUrl := "#" }] },
        Response.redirect (itemUrl 3)) :=
  ⟨by decide, create_post_valid_no_file demoUpload demoStore 3 demoFields (by decide)⟩

/-- C7: a Create POST whose validation yields a non-empty error set persists
nothing; it re-fetches the slot list and renders the form with the sanitized
candidate and the error list; the branch is terminal. -/
theorem create_post_invalid_renders (upload : FileUpload → String) (s : Store)
    (freshId : Nat) (f : FormFields) (file : Option FileUpload)
    (hv : validateItemForm f file ≠ []) :
    item_create_post upload s freshId f file =
      (s, Response.renderItemForm "Create Item" (some (candidateItem freshId f))
        s.slots (some (validateItemForm f file)) none none none) := by
  simp [item_create_post, hv]

/-- Witness for C7: creating with an empty name is refused with the
"Name must not be empty." error and no persistence. -/
theorem create_post_invalid_renders_witness :
    validateItemForm badFields none = [⟨"name", "Name must not be empty."⟩] ∧
    item_create_post demoUpload demoStore 3 badFields none =
      (demoStore, Response.renderItemForm "Create Item"
        (some (candidateItem 3 badFields)) demoStore.slots
        (some (validateItemForm badFields none)) none none none) :=
  ⟨by decide, create_post_invalid_renders demoUpload demoStore 3 badFields none (by decide)⟩

/-- C8: a Delete GET whose item lookup returns none commits a redirect to
the item list as its response; the confirmation render attempted afterwards
(the source lacks a `return`) comes after the committed redirect, so the
client observes only the redirect and no confirmation page. -/
theorem delete_get_missing_item_redirects (s : Store) (routeId : Nat)
    (h : findItemById s routeId = none) :
    effectiveResponse (item_delete_get s routeId) =
      some (Response.redirect "/catalog/items") := by
  simp [item_delete_get, effectiveResponse, h]

/-- Witness for C8: `demoStore` has no item 99, and the Delete GET on id 99
resolves to the redirect. -/
theorem delete_get_missing_item_redirects_witness :
    findItemById demoStore 99 = none ∧
    effectiveResponse (item_delete_get demoStore 99) =
      some (Response.redirect "/catalog/items") :=
  ⟨by decide, delete_get_missing_item_redirects demoStore 99 (by decide)⟩

/-- After `Item.findByIdAndDelete(i)` no document with id `i` remains. -/
lemma hasItemId_deleteItemById (s : Store) (i : Nat) :
    hasItemId (deleteItemById s i).items i = false := by
  simp only [hasItemId, deleteItemById, List.any_eq_false, List.mem_filter]
  rintro x ⟨_, hx⟩
  simpa using hx

/-- C1: a Delete POST on an item id (route id and form-body itemid both
naming it) removes the stored record with that id iff no ItemInstance
references it and the supplied security code is "123"; when the gate
passes, the response is the redirect to the item list. -/
theorem delete_post_removes_iff (s : Store) (i : Nat) (code : String)
    (hpres : hasItemId s.items i = true) :
    (hasItemId (item_delete_post s i code i).1.items i = false ↔
      ((instancesOf s i).length = 0 ∧ code = "123")) ∧
    ((instancesOf s i).length = 0 ∧ code = "123" →
      (item_delete_post s i code i).2 = Response.redirect "/catalog/items") := by
  by_cases hgate : 0 < (instancesOf s i).length ∨ code ≠ "123"
  · have hrun : item_delete_post s i code i =
        (s, Response.renderItemDelete "Delete Item" (findItemById s i)
          (instancesOf s i) (some code) (some "Wrong security code.")) := by
      simp only [item_delete_post]
      rw [if_pos hgate]
    rw [hrun]
    constructor
    · constructor
      · intro hfalse
        rw [hpres] at hfalse
        exact absurd hfalse (by decide)
      · rintro ⟨h0, hc⟩
        rcases hgate with hlen | hne
        · omega
        · exact absurd hc hne
    · rintro ⟨h0, hc⟩
      rcases hgate with hlen | hne
      · omega
      · exact absurd hc hne
  · push_neg at hgate
    obtain ⟨hlen, hc⟩ := hgate
    have hgate' : ¬(0 < (instancesOf s i).length ∨ code ≠ "123") := by
      rintro (h | h)
      · omega
      · exact h hc
    have hrun : item_delete_post s i code i =
        (deleteItemById s i, Response.redirect "/catalog/items") := by
      simp only [item_delete_post]
      rw [if_neg hgate']
    rw [hrun]
    refine ⟨?_, fun _ => rfl⟩
    constructor
    · intro _
      exact ⟨by omega, hc⟩
    · intro _
      exact hasItemId_deleteItemById s i

/-- Witness for C1: item 2 of `demoStore` exists and has no instances, and
the theorem's conclusions hold there with code "123". -/
theorem delete_post_removes_iff_witness :
    hasItemId demoStore.items 2 = true ∧
    ((hasItemId (item_delete_post demoStore 2 "123" 2).1.items 2 = false ↔
        ((instancesOf demoStore 2).length = 0 ∧ "123" = "123")) ∧
      ((instancesOf demoStore 2).length = 0 ∧ "123" = "123" →
        (item_delete_post demoStore 2 "123" 2).2 =
          Response.redirect "/catalog/items")) :=
  ⟨by decide, delete_post_removes_iff demoStore 2 "123" (by decide)⟩

/-- C9: a refused Update POST (validation errors or wrong code) and a
refused Delete POST (blocking instances or wrong code) leave the store
unchanged, and re-running the same request on the resulting state yields
exactly the same store and response. -/
theorem refused_write_idempotent (upload : FileUpload → String) (s : Store)
    (routeId : Nat) (f : FormFields) (file : Option FileUpload)
    (code : String) (itemid : Nat) :
    ((validateItemForm f file ≠ [] ∨ code ≠ "123") →
      (item_update_post upload s routeId f file code).1 = s ∧
      item_update_post upload (item_update_post upload s routeId f file code).1
          routeId f file code =
        item_update_post upload s routeId f file code) ∧
    ((0 < (instancesOf s routeId).length ∨ code ≠ "123") →
      (item_delete_post s routeId code itemid).1 = s ∧
      item_delete_post (item_delete_post s routeId code itemid).1
          routeId code itemid =
        item_delete_post s routeId code itemid) := by
  constructor
  · intro hgate
    have h1 : (item_update_post upload s routeId f file code).1 = s := by
      simp only [item_update_post]
      rw [if_pos hgate]
    exact ⟨h1, by rw [h1]⟩
  · intro hgate
    have h1 : (item_delete_post s routeId code itemid).1 = s := by
      simp only [item_delete_post]
      rw [if_pos hgate]
    exact ⟨h1, by rw [h1]⟩

/-- Witness for C9: with wrong code "999", both the refused update and the
refused delete on `demoStore` leave it unchanged and re-run identically. -/
theorem refused_write_idempotent_witness :
    (validateItemForm demoFields none ≠ [] ∨ ("999" : String) ≠ "123") ∧
    (0 < (instancesOf demoStore 1).length ∨ ("999" : String) ≠ "123") ∧
    ((item_update_post demoUpload demoStore 1 demoFields none "999").1 = demoStore ∧
      item_update_post demoUpload
          (item_update_post demoUpload demoStore 1 demoFields none "999").1
          1 demoFields none "999" =
        item_update_post demoUpload demoStore 1 demoFields none "999") ∧
    ((item_delete_post demoStore 1 "999" 1).1 = demoStore ∧
      item_delete_post (item_delete_post demoStore 1 "999" 1).1 1 "999" 1 =
        item_delete_post demoStore 1 "999" 1) :=
  ⟨by decide, by decide,
    (refused_write_idempotent demoUpload demoStore 1 demoFields none "999" 1).1
      (by decide),
    (refused_write_idempotent demoUpload demoStore 1 demoFields none "999" 1).2
      (by decide)⟩

/-- A store with two items and no instances, for exercising the
route-id/body-itemid mismatch. -/
def mismatchStore : Store :=
  { items := [⟨1, "Sword", "A sharp blade", "Epic", "hand", "#"⟩,
              ⟨2, "Shield", "A sturdy shield", "Rare", "offhand", "#"⟩]
    instances := []
    slots := [] }

/-- C10: the Delete POST gate checks the route parameter id while the
deletion targets the form-body itemid: on `mismatchStore` with route id 1,
body itemid 2 and code "123", the gate (checked against id 1) passes, the
record with id 2 is removed, the record with id 1 — the one whose
instance count was checked — remains, and the response is the redirect. -/
theorem delete_post_targets_body_itemid :
    (instancesOf mismatchStore 1).length = 0 ∧
    item_delete_post mismatchStore 1 "123" 2 =
      ({ mismatchStore with
          items := [⟨1, "Sword", "A sharp blade", "Epic", "hand", "#"⟩] },
        Response.redirect "/catalog/items") ∧
    hasItemId (item_delete_post mismatchStore 1 "123" 2).1.items 1 = true ∧
    hasItemId (item_delete_post mismatchStore 1 "123" 2).1.items 2 = false := by
  decide

end Inventory
